import Mathlib

/-
Shallow embedding of flang's runtime I/O statement API
(flang/runtime/io-api.cpp) and proofs about it.

Pure fragments are translated directly from the source file.  Collaborators
that live outside the translated source file (the unit registry internals in
unit.cpp, the error handler in io-error.cpp, the statement classes in
io-stmt.cpp, and the keyword encoder declared in io-api.h) are modelled from
the specification and are marked as such in their doc comments.
-/

/-! ## Inquiry keyword codec -/

/-- The decoder loop of InquiryKeywordHashDecode (io-api.cpp lines 35-41).
The destination buffer is modelled by the write offset p: the C pointer p
corresponds to buffer + p, so p may be examined (and, as the proofs show,
even written) below offset 0, which models a pointer before the buffer.
Each iteration first performs the guard test p < buffer, then stores one
character at offset p - 1 and decrements p, exactly as the source does with
a pre-decrement store.  The accumulator collects the stored characters in
buffer order (most recently stored character first, i.e. leftmost). -/
def InquiryKeywordHashDecodeLoop (hash : Nat) (p : Int) (acc : List Char) :
    Option (Int × List Char) :=
  if h : hash > 1 then
    if p < 0 then none
    else InquiryKeywordHashDecodeLoop (hash / 26) (p - 1)
      (Char.ofNat (65 + hash % 26) :: acc)
  else if hash = 1 then some (p, acc) else none
termination_by hash
decreasing_by exact Nat.div_lt_self (by omega) (by omega)

/-- InquiryKeywordHashDecode (io-api.cpp lines 28-43).  Takes the buffer
size n and the hash.  A none models the C function returning nullptr; a
some (p, s) models a non-null return value: the returned pointer is
buffer + p and the decoded text s occupies offsets p, ..., p + s.length - 1,
with the NUL terminator at offset n - 1.  The function first writes the
terminator at offset n - 1 (requiring n >= 1) and enters the loop with the
write pointer at that offset. -/
def InquiryKeywordHashDecode (n : Nat) (hash : Nat) : Option (Int × List Char) :=
  if n < 1 then none
  else InquiryKeywordHashDecodeLoop hash ((n : Int) - 1) []

/-- Modelled from the spec: the inquiry keyword encoder (HashInquiryKeyword is
declared in the header io-api.h, which is not part of the translated source).
Per the spec it treats the keyword as digits in a base-26 positional system
(letter to 0..25) with an implicit leading sentinel digit 1. -/
def HashInquiryKeyword (s : List Char) : Nat :=
  s.foldl (fun h c => 26 * h + (c.toNat - 65)) 1

/-! ## Status codes, enumerations and the unit model -/

/-- The statement outcome codes used by the translated entry points.
Constructors marked (modelled) do not appear in the translated source file
and stand for statuses of collaborators described by the spec. -/
inductive Iostat where
  | Ok
  | BadUnitNumber
  | UnitOverflow
  | FormattedIoOnUnformattedUnit
  | UnformattedIoOnFormattedUnit
  | ListIoOnDirectAccessUnit
  | BadOpOnChildUnit
  | BadWaitUnit
  | BadWaitId
  | BadFlushUnit
  | BadBackspaceUnit
  | BadAsynchronous
  | ErrorInKeyword
  | GenericError
  | DirectionNotAllowed
  | ChildFormattingMismatch
  | ChildDirectionMismatch
  deriving DecidableEq, Repr

inductive Direction where
  | Input
  | Output
  deriving DecidableEq, Repr

inductive Access where
  | Sequential
  | Direct
  | Stream
  deriving DecidableEq, Repr

inductive Position where
  | AsIs
  | Rewind
  | Append
  deriving DecidableEq, Repr

/-- Modelled from the spec: an active child I/O context nested in a parent
transfer; it records the parent's formatting and direction, against which a
nested statement's request is checked. -/
structure ChildIo where
  parentIsUnformatted : Bool
  parentDirection : Direction
  deriving DecidableEq, Repr

/-- Modelled from the spec: an external unit as kept in the process-wide
registry, with the attributes the translated entry points read and write. -/
structure ExternalFileUnit where
  unitNumber : Int
  isUnformatted : Option Bool := none
  access : Access := Access.Sequential
  direction : Option Direction := none
  mayRead : Bool := true
  mayWrite : Bool := true
  openRecl : Option Int := none
  recordLength : Option Int := none
  child : Option ChildIo := none
  pendingIds : List Int := []
  deriving DecidableEq, Repr

/-- Modelled from the spec: the process-wide unit registry, a table of units
keyed by unit number. -/
abbrev Registry := List ExternalFileUnit

/-- Modelled from the spec: ExternalFileUnit::LookUp, a non-creating lookup
by unit number. -/
def LookUp (rs : Registry) (n : Int) : Option ExternalFileUnit :=
  rs.find? (fun u => u.unitNumber == n)

/-- Modelled from the spec: ExternalFileUnit::LookUpForClose, also a
non-creating lookup. -/
def LookUpForClose (rs : Registry) (n : Int) : Option ExternalFileUnit :=
  LookUp rs n

/-- Replace the registry entry with u's unit number by u (models in-place
mutation of a registry unit through a reference). -/
def updateUnit (rs : Registry) (u : ExternalFileUnit) : Registry :=
  rs.map (fun v => if v.unitNumber = u.unitNumber then u else v)

/-- The representable range of the unit identifier type ExternalUnit, a
32-bit int (io-api.h): -(2^31) <= n < 2^31. -/
def fitsExternalUnit (n : Int) : Bool :=
  (-2147483648 ≤ n) && (n < 2147483648)

/-- Modelled from the spec: ExternalFileUnit::LookUpOrCreateAnonymous, used by
transfer Begin operations when no OPEN has occurred; returns the existing
unit, or creates a default-configured unit; fails only when the numeric unit
identifier is out of the representable range. -/
def LookUpOrCreateAnonymous (rs : Registry) (n : Int) (dir : Direction)
    (isUnformatted : Option Bool) : Option (ExternalFileUnit × Registry) :=
  match LookUp rs n with
  | some u => some (u, rs)
  | none =>
    if fitsExternalUnit n then
      let u : ExternalFileUnit :=
        { unitNumber := n, isUnformatted := isUnformatted, direction := some dir }
      some (u, rs ++ [u])
    else none

/-- Modelled from the spec: ExternalFileUnit::SetDirection establishes the
direction of a statement on the unit, failing when the unit's action
settings forbid the requested direction. -/
def ExternalFileUnit.SetDirection (u : ExternalFileUnit) (dir : Direction) :
    Iostat × ExternalFileUnit :=
  match dir with
  | Direction.Input =>
    if u.mayRead then (Iostat.Ok, { u with direction := some Direction.Input })
    else (Iostat.DirectionNotAllowed, u)
  | Direction.Output =>
    if u.mayWrite then (Iostat.Ok, { u with direction := some Direction.Output })
    else (Iostat.DirectionNotAllowed, u)

/-- Modelled from the spec: ExternalFileUnit::Wait; ID=0 waits for all
pending asynchronous handles, a nonzero ID must name a pending handle. -/
def ExternalFileUnit.Wait (u : ExternalFileUnit) (id : Int) :
    Option ExternalFileUnit :=
  if id = 0 then some { u with pendingIds := [] }
  else if u.pendingIds.contains id then
    some { u with pendingIds := u.pendingIds.erase id }
  else none

/-- Modelled from the spec: ChildIo::CheckFormattingAndDirection rejects a
nested statement whose requested formatting or direction is incompatible
with the parent's. -/
def ChildIo.checkFormattingAndDirection (c : ChildIo) (unformatted : Bool)
    (dir : Direction) : Iostat :=
  if unformatted ≠ c.parentIsUnformatted then Iostat.ChildFormattingMismatch
  else if dir ≠ c.parentDirection then Iostat.ChildDirectionMismatch
  else Iostat.Ok

/-! ## Statement state (cookie), handler and modes -/

/-- Modelled from the spec: the error/status accumulator of a statement.
anyChannel records whether the caller enabled at least one optional
reporting channel (IOSTAT=, ERR=, END=, EOR=, IOMSG=); pending is the at
most one primary status (first reported wins); msg is the optional message. -/
structure Handler where
  anyChannel : Bool := false
  pending : Iostat := Iostat.Ok
  msg : Option String := none
  deriving DecidableEq, Repr

/-- The outcome of an API call that may take the fatal misuse/abort path:
crash models Terminator/IoErrorHandler::Crash (process abort), ok models a
normal return. -/
inductive IoResult (α : Type) where
  | ok (a : α)
  | crash (msg : String)
  deriving DecidableEq, Repr

/-- Modelled from the spec: IoErrorHandler::SignalError.  A status set while
no optional channel is enabled escalates to a fatal abort; once a channel is
enabled the first status and message are stored and later signals are
ignored. -/
def Handler.signalError (h : Handler) (stat : Iostat) (m : Option String) :
    IoResult Handler :=
  if h.anyChannel then
    if h.pending = Iostat.Ok then
      IoResult.ok { h with pending := stat, msg := m }
    else IoResult.ok h
  else IoResult.crash (m.getD "fatal Fortran runtime error")

/-- Per-statement formatting mode flags; only the parts touched by the
translated setters are modelled. -/
structure Modes where
  blankZero : Bool := false
  deriving DecidableEq, Repr

inductive OpenStatus where
  | Old
  | New
  | Scratch
  | Replace
  | Unknown
  deriving DecidableEq, Repr

/-- The sub-state of an OpenStatementState: the referenced unit, the
was-extant flag reported by LookUpOrCreate, the completed-operation flag,
and the pending specifier values stored by the Set* calls (applied when the
statement ends).  completeError is modelled from the spec: the status, if
any, with which committing the OPEN's irrevocable action (performed by
CompleteOperation, which lives in io-stmt.cpp outside the translated
source) fails, e.g. an error from the underlying transport. -/
structure OpenState where
  unit : ExternalFileUnit
  wasExtant : Bool := false
  completed : Bool := false
  access_ : Option Access := none
  position_ : Option Position := none
  status_ : Option OpenStatus := none
  isUnformatted_ : Option Bool := none
  path_ : Option String := none
  completeError : Iostat := Iostat.Ok
  deriving DecidableEq, Repr

/-- The mutually exclusive statement kinds (variants) a cookie can be in,
restricted to those the translated entry points construct. -/
inductive StmtCore where
  | openSt (o : OpenState)
  | closeSt (unitNum : Int)
  | externalList (dir : Direction) (unitNum : Int)
  | childList (dir : Direction)
  | externalFormatted (dir : Direction) (unitNum : Int)
  | childFormatted (dir : Direction)
  | externalUnformatted (dir : Direction) (unitNum : Int)
  | childUnformatted (dir : Direction)
  | miscSt (unitNum : Int)
  | noop (unitNum : Int)
  | erroneous (unitNum : Option Int)
  deriving DecidableEq, Repr

/-- The statement handle ("cookie") returned by the Begin entry points. -/
structure Cookie where
  core : StmtCore
  handler : Handler := {}
  modes : Modes := {}
  deriving DecidableEq, Repr

def StmtCore.isErroneousB : StmtCore → Bool
  | StmtCore.erroneous _ => true
  | _ => false

def StmtCore.isOpenB : StmtCore → Bool
  | StmtCore.openSt _ => true
  | _ => false

def Cookie.inError (c : Cookie) : Bool :=
  c.handler.pending != Iostat.Ok

/-- A fresh statement handler carrying a pending status (Ok for none). -/
def freshHandler (iostat : Iostat) : Handler :=
  { anyChannel := false, pending := iostat, msg := none }

/-- NoopUnit (io-api.cpp lines 158-168): a no-op statement handle for a
given unit number, with an optional pending error. -/
def NoopUnit (n : Int) (iostat : Iostat) : Cookie :=
  { core := StmtCore.noop n, handler := freshHandler iostat, modes := {} }

/-- EnableHandlers (io-api.cpp lines 568-586). -/
def EnableHandlers (c : Cookie) (hasIoStat hasErr hasEnd hasEor hasIoMsg : Bool) :
    Cookie :=
  { c with handler :=
      { c.handler with anyChannel :=
          c.handler.anyChannel || hasIoStat || hasErr || hasEnd || hasEor || hasIoMsg } }

/-- Modelled from the spec: EndIoStatement finalizes the statement and
returns the accumulated status. -/
def EndIoStatement (c : Cookie) : Iostat :=
  c.handler.pending

/-! ## Unit resolution used by the Begin entry points -/

/-- GetOrCreateUnit (io-api.cpp lines 170-182): resolve or create the unit;
on failure produce the error cookie (a no-op unit carrying
IostatBadUnitNumber) that the Begin entry point returns. -/
def GetOrCreateUnit (rs : Registry) (n : Int) (dir : Direction)
    (isUnformatted : Option Bool) : Except Cookie (ExternalFileUnit × Registry) :=
  match LookUpOrCreateAnonymous rs n dir isUnformatted with
  | some (u, rs') => Except.ok (u, rs')
  | none => Except.error (NoopUnit n Iostat.BadUnitNumber)

/-- The sentinel "default unit" number (io-api.h). -/
def DefaultUnit : Int := -1

/-- The unit-number substitution done by the external list/formatted Begin
entry points (io-api.cpp lines 188-190, 249-251): the sentinel default unit
resolves to preconnected unit 5 for input and 6 for output. -/
def resolveListUnit (dir : Direction) (n : Int) : Int :=
  if n = DefaultUnit then
    (match dir with | Direction.Input => 5 | Direction.Output => 6)
  else n

/-! ## Begin entry points -/

/-- BeginExternalListIO (io-api.cpp lines 184-230), the template behind
BeginExternalListOutput/Input: resolve the default unit, get or create the
unit (requesting formatted), establish the formatting flag if still unknown,
detect formatted I/O on an unformatted unit, dispatch to an active child
context if one exists, reject list-directed I/O on a direct access unit,
set the direction, and construct either the transfer statement or an
erroneous statement carrying the accumulated status. -/
def BeginExternalListIo (dir : Direction) (unitNumber : Int) (rs : Registry) :
    Cookie × Registry :=
  let n := resolveListUnit dir unitNumber
  match GetOrCreateUnit rs n dir (some false) with
  | Except.error c => (c, rs)
  | Except.ok (u, rs₁) =>
    let u := if u.isUnformatted = none then { u with isUnformatted := some false } else u
    let iostat :=
      if u.isUnformatted = some true then Iostat.FormattedIoOnUnformattedUnit
      else Iostat.Ok
    match u.child with
    | some child =>
      let iostat :=
        if iostat = Iostat.Ok then child.checkFormattingAndDirection false dir
        else iostat
      if iostat = Iostat.Ok then
        ({ core := StmtCore.childList dir, handler := freshHandler Iostat.Ok,
           modes := {} }, updateUnit rs₁ u)
      else
        ({ core := StmtCore.erroneous none, handler := freshHandler iostat,
           modes := {} }, updateUnit rs₁ u)
    | none =>
      let iostat :=
        if iostat = Iostat.Ok ∧ u.access = Access.Direct then
          Iostat.ListIoOnDirectAccessUnit
        else iostat
      let r := if iostat = Iostat.Ok then u.SetDirection dir else (iostat, u)
      let iostat := r.1
      let u := r.2
      if iostat = Iostat.Ok then
        ({ core := StmtCore.externalList dir u.unitNumber,
           handler := freshHandler Iostat.Ok, modes := {} }, updateUnit rs₁ u)
      else
        ({ core := StmtCore.erroneous (some u.unitNumber),
           handler := freshHandler iostat, modes := {} }, updateUnit rs₁ u)

/-- BeginExternalFormattedIO (io-api.cpp lines 244-290).  Identical to the
list-directed case except that there is no direct-access rejection and the
constructed states are the formatted ones.  The format string itself is
interpreted by an excluded collaborator and is not modelled. -/
def BeginExternalFormattedIo (dir : Direction) (unitNumber : Int) (rs : Registry) :
    Cookie × Registry :=
  let n := resolveListUnit dir unitNumber
  match GetOrCreateUnit rs n dir (some false) with
  | Except.error c => (c, rs)
  | Except.ok (u, rs₁) =>
    let u := if u.isUnformatted = none then { u with isUnformatted := some false } else u
    let iostat :=
      if u.isUnformatted = some true then Iostat.FormattedIoOnUnformattedUnit
      else Iostat.Ok
    match u.child with
    | some child =>
      let iostat :=
        if iostat = Iostat.Ok then child.checkFormattingAndDirection false dir
        else iostat
      if iostat = Iostat.Ok then
        ({ core := StmtCore.childFormatted dir, handler := freshHandler Iostat.Ok,
           modes := {} }, updateUnit rs₁ u)
      else
        ({ core := StmtCore.erroneous none, handler := freshHandler iostat,
           modes := {} }, updateUnit rs₁ u)
    | none =>
      let r := if iostat = Iostat.Ok then u.SetDirection dir else (iostat, u)
      let iostat := r.1
      let u := r.2
      if iostat = Iostat.Ok then
        ({ core := StmtCore.externalFormatted dir u.unitNumber,
           handler := freshHandler Iostat.Ok, modes := {} }, updateUnit rs₁ u)
      else
        ({ core := StmtCore.erroneous (some u.unitNumber),
           handler := freshHandler iostat, modes := {} }, updateUnit rs₁ u)

/-- BeginUnformattedIO (io-api.cpp lines 306-356): no default-unit
substitution; the unit is requested unformatted; an established formatted
flag yields the converse mismatch status; on the successful sequential
output path the record length is reset (the emitted placeholder record
header bytes belong to the excluded buffering collaborator and are not
modelled). -/
def BeginUnformattedIo (dir : Direction) (unitNumber : Int) (rs : Registry) :
    Cookie × Registry :=
  match GetOrCreateUnit rs unitNumber dir (some true) with
  | Except.error c => (c, rs)
  | Except.ok (u, rs₁) =>
    let u := if u.isUnformatted = none then { u with isUnformatted := some true } else u
    let iostat :=
      if u.isUnformatted = some false then Iostat.UnformattedIoOnFormattedUnit
      else Iostat.Ok
    match u.child with
    | some child =>
      let iostat :=
        if iostat = Iostat.Ok then child.checkFormattingAndDirection true dir
        else iostat
      if iostat = Iostat.Ok then
        ({ core := StmtCore.childUnformatted dir, handler := freshHandler Iostat.Ok,
           modes := {} }, updateUnit rs₁ u)
      else
        ({ core := StmtCore.erroneous none, handler := freshHandler iostat,
           modes := {} }, updateUnit rs₁ u)
    | none =>
      let r := if iostat = Iostat.Ok then u.SetDirection dir else (iostat, u)
      let iostat := r.1
      let u := r.2
      if iostat = Iostat.Ok then
        let u := if dir = Direction.Output ∧ u.access = Access.Sequential then
                   { u with recordLength := none }
                 else u
        ({ core := StmtCore.externalUnformatted dir u.unitNumber,
           handler := freshHandler Iostat.Ok, modes := {} }, updateUnit rs₁ u)
      else
        ({ core := StmtCore.erroneous (some u.unitNumber),
           handler := freshHandler iostat, modes := {} }, updateUnit rs₁ u)

/-- BeginWait (io-api.cpp lines 399-414): on a connected unit, wait for the
requested handle (erroneous with IostatBadWaitId when the id is unknown);
on an unconnected unit, a no-op handle whose status is Ok for ID=0 and
IostatBadWaitUnit otherwise. -/
def BeginWait (unitNumber : Int) (id : Int) (rs : Registry) : Cookie × Registry :=
  match LookUp rs unitNumber with
  | some u =>
    match u.Wait id with
    | some u' =>
      ({ core := StmtCore.miscSt unitNumber, handler := freshHandler Iostat.Ok,
         modes := {} }, updateUnit rs u')
    | none =>
      ({ core := StmtCore.erroneous (some unitNumber),
         handler := freshHandler Iostat.BadWaitId, modes := {} }, rs)
  | none => (NoopUnit unitNumber (if id = 0 then Iostat.Ok else Iostat.BadWaitUnit), rs)

/-- BeginClose (io-api.cpp lines 420-437): a connected unit with an active
child context is rejected; otherwise a close statement on the unit found by
LookUpForClose, and CLOSE on an unconnected unit is a plain no-op handle
with no pending error. -/
def BeginClose (unitNumber : Int) (rs : Registry) : Cookie × Registry :=
  if (match LookUp rs unitNumber with
      | some u => u.child.isSome
      | none => false) then
    ({ core := StmtCore.erroneous none, handler := freshHandler Iostat.BadOpOnChildUnit,
       modes := {} }, rs)
  else
    match LookUpForClose rs unitNumber with
    | some _ =>
      ({ core := StmtCore.closeSt unitNumber, handler := freshHandler Iostat.Ok,
         modes := {} }, rs)
    | none => (NoopUnit unitNumber Iostat.Ok, rs)

/-! ## Keyword matching and the Set-specifier entry points -/

/-- Drop trailing blanks from a specifier value. -/
def trimTrailingBlanks (s : String) : String :=
  String.mk ((s.toList.reverse.dropWhile (fun c => c = ' ')).reverse)

/-- Modelled from the spec: IdentifyValue resolves a keyword value against a
small fixed keyword table by case-sensitive exact match after trimming
trailing blanks; an empty (all-blank) value matches nothing. -/
def IdentifyValue (value : String) (keywords : List String) : Option Nat :=
  let v := trimTrailingBlanks value
  if v.toList = [] then none
  else keywords.findIdx? (fun k => k == v)

def accessKeywords : List String := ["SEQUENTIAL", "DIRECT", "STREAM", "APPEND"]

def blankKeywords : List String := ["NULL", "ZERO"]

/-- Signal a status on a cookie's handler and return the given boolean on
the non-fatal path. -/
def signalOn (c : Cookie) (stat : Iostat) (m : String) (ret : Bool) :
    IoResult (Bool × Cookie) :=
  match c.handler.signalError stat (some m) with
  | IoResult.ok h => IoResult.ok (ret, { c with handler := h })
  | IoResult.crash s => IoResult.crash s

/-- SetAccess (io-api.cpp lines 759-792).  Only legal on an OPEN statement
that has not completed its operation; on an erroneous cookie it returns
false without crashing; keyword values are matched against
SEQUENTIAL/DIRECT/STREAM/APPEND, an unmatched value signals
IostatErrorInKeyword, and the function returns true in every non-fatal
open-statement case (even for the unmatched keyword). -/
def SetAccess (c : Cookie) (keyword : String) : IoResult (Bool × Cookie) :=
  match c.core with
  | StmtCore.openSt o =>
    if o.completed then
      IoResult.crash "SetAccess() called after GetNewUnit() for an OPEN statement"
    else
      match IdentifyValue keyword accessKeywords with
      | some 0 =>
        IoResult.ok (true, { c with core := StmtCore.openSt { o with access_ := some Access.Sequential } })
      | some 1 =>
        IoResult.ok (true, { c with core := StmtCore.openSt { o with access_ := some Access.Direct } })
      | some 2 =>
        IoResult.ok (true, { c with core := StmtCore.openSt { o with access_ := some Access.Stream } })
      | some 3 =>
        IoResult.ok (true, { c with core := StmtCore.openSt { o with position_ := some Position.Append } })
      | _ => signalOn c Iostat.ErrorInKeyword ("Invalid ACCESS=" ++ keyword) true
  | StmtCore.erroneous _ => IoResult.ok (false, c)
  | _ => IoResult.crash "SetAccess() called when not in an OPEN statement"

/-- SetBlank (io-api.cpp lines 621-636).  Sets the blank-interpretation mode
flag of the statement; an unmatched keyword signals IostatErrorInKeyword and
returns false. -/
def SetBlank (c : Cookie) (keyword : String) : IoResult (Bool × Cookie) :=
  match IdentifyValue keyword blankKeywords with
  | some 0 => IoResult.ok (true, { c with modes := { c.modes with blankZero := false } })
  | some 1 => IoResult.ok (true, { c with modes := { c.modes with blankZero := true } })
  | _ => signalOn c Iostat.ErrorInKeyword ("Invalid BLANK=" ++ keyword) false

/-- SetRecl (io-api.cpp lines 1006-1030).  Only legal on an OPEN statement
that has not completed its operation; n is a size_t, so the source test
n <= 0 holds exactly for n = 0, which signals the recoverable message
"RECL= must be greater than zero" and returns false without touching the
unit's openRecl; changing RECL= on an already-open unit is also rejected;
otherwise openRecl is set. -/
def SetRecl (c : Cookie) (n : Nat) : IoResult (Bool × Cookie) :=
  match c.core with
  | StmtCore.openSt o =>
    if o.completed then
      IoResult.crash "SetRecl() called after GetNewUnit() for an OPEN statement"
    else if n = 0 then
      signalOn c Iostat.GenericError "RECL= must be greater than zero" false
    else if o.wasExtant ∧ o.unit.openRecl.getD 0 ≠ (n : Int) then
      signalOn c Iostat.GenericError "RECL= may not be changed for an open unit" false
    else
      let u' : ExternalFileUnit := { o.unit with openRecl := some (n : Int) }
      IoResult.ok (true, { c with core := StmtCore.openSt { o with unit := u' } })
  | StmtCore.erroneous _ => IoResult.ok (false, c)
  | _ => IoResult.crash "SetRecl() called when not in an OPEN statement"

/-! ## Completion entry points -/

/-- Modelled from the spec: OpenStatementState::CompleteOperation commits the
OPEN's irrevocable action; afterwards the completed-operation flag is set.
The commit itself is performed by excluded collaborators and may fail with
the status recorded in completeError, which is then signalled on the
handler. -/
def completeOpenOperation (o : OpenState) (h : Handler) :
    IoResult (OpenState × Handler) :=
  if o.completed then IoResult.ok (o, h)
  else
    let o' := { o with completed := true }
    if o'.completeError = Iostat.Ok then IoResult.ok (o', h)
    else
      match h.signalError o'.completeError none with
      | IoResult.ok h' => IoResult.ok (o', h')
      | IoResult.crash m => IoResult.crash m

/-- Modelled from the spec: SetInteger stores a 64-bit value into an integer
variable of the given kind, leaving the variable alone and reporting failure
when the kind is not a supported integer kind or the value does not fit. -/
def SetInteger (value : Int) (kind : Nat) : Option Int :=
  if (kind = 1 ∨ kind = 2 ∨ kind = 4 ∨ kind = 8) ∧
      -(2 ^ (8 * kind - 1)) ≤ value ∧ value < 2 ^ (8 * kind - 1) then
    some value
  else none

/-- GetNewUnit (io-api.cpp lines 1102-1125).  The second component of the
ok result is the value written into the caller's output unit-number
variable: none models leaving the variable completely unmodified.  A failed
OPEN (an error pending before or arising while completing the operation)
returns false without touching the variable; on success the new unit number
is written when it fits the requested kind, and the function returns true
even when it does not fit (signalling an error instead of writing). -/
def GetNewUnit (c : Cookie) (kind : Nat) : IoResult (Bool × Option Int × Cookie) :=
  match c.core with
  | StmtCore.openSt o =>
    match (if c.inError = false then completeOpenOperation o c.handler
           else IoResult.ok (o, c.handler)) with
    | IoResult.crash m => IoResult.crash m
    | IoResult.ok (o₁, h₁) =>
      let c₁ : Cookie := { c with core := StmtCore.openSt o₁, handler := h₁ }
      if c₁.inError then IoResult.ok (false, none, c₁)
      else
        match SetInteger o₁.unit.unitNumber kind with
        | some v => IoResult.ok (true, some v, c₁)
        | none =>
          match h₁.signalError Iostat.GenericError
              (some "GetNewUnit(): bad INTEGER kind or out-of-range value for result") with
          | IoResult.ok h₂ => IoResult.ok (true, none, { c₁ with handler := h₂ })
          | IoResult.crash m => IoResult.crash m
  | StmtCore.erroneous _ => IoResult.ok (false, none, c)
  | _ => IoResult.crash "GetNewUnit() called when not in an OPEN statement"

/-! ## Unit-number range validation -/

/-- The narrowing conversion static_cast to ExternalUnit (32-bit int) used by
CheckUnitNumberInRangeImpl, modelled as wrap-around modular reduction. -/
def toExternalUnit (n : Int) : Int :=
  (n + 2147483648) % 4294967296 - 2147483648

/-- CheckUnitNumberInRangeImpl instantiated at INT = int64
(io-api.cpp lines 1467-1505): when the unit number does not survive the
narrowing conversion to ExternalUnit, a local error handler (with the
IOSTAT channel enabled exactly when handleError is set) signals
IostatUnitOverflow and its accumulated status is returned; signalling with
no channel enabled is the fatal path.  In-range unit numbers return
IostatOk.  The optional IOMSG output buffer is not modelled. -/
def CheckUnitNumberInRange64 (unit : Int) (handleError : Bool) : IoResult Iostat :=
  if unit = toExternalUnit unit then IoResult.ok Iostat.Ok
  else
    let h : Handler := { anyChannel := handleError, pending := Iostat.Ok, msg := none }
    match h.signalError Iostat.UnitOverflow (some "UNIT number %jd is out of range") with
    | IoResult.ok h' => IoResult.ok h'.pending
    | IoResult.crash m => IoResult.crash m

/-- Modelled from the spec: compiler-generated code validates a unit number
that came from a 64-bit integer with CheckUnitNumberInRange64 before any
Begin call; when the validator reports a failure the Begin call is not made
(so the registry is untouched) and the statement's handle carries the
validator's status. -/
def BeginExternalListOutput64 (unit : Int) (handleError : Bool) (rs : Registry) :
    IoResult (Cookie × Registry) :=
  match CheckUnitNumberInRange64 unit handleError with
  | IoResult.ok Iostat.Ok => IoResult.ok (BeginExternalListIo Direction.Output unit rs)
  | IoResult.ok stat =>
    IoResult.ok ({ core := StmtCore.erroneous none,
                   handler := { anyChannel := handleError, pending := stat, msg := none },
                   modes := {} }, rs)
  | IoResult.crash m => IoResult.crash m

/-! ## Concrete sample states used by the claim theorems and witnesses -/

/-- A sample erroneous cookie: the handle an OPEN-family Begin returns when
the statement could not legally begin (it carries only a failure status). -/
def c3ErroneousCookie : Cookie :=
  { core := StmtCore.erroneous (some 7),
    handler := { anyChannel := true, pending := Iostat.BadUnitNumber, msg := none },
    modes := {} }

/-- A sample no-op statement cookie bound to unit 3. -/
def c3NoopCookie : Cookie :=
  { core := StmtCore.noop 3 }

/-- A unit established as unformatted, used to witness C4. -/
def c4Unit : ExternalFileUnit := { unitNumber := 7, isUnformatted := some true }

def c4Registry : Registry := [c4Unit]

/-- A direct-access unit established as unformatted (e.g. from
OPEN(ACCESS='DIRECT', FORM='UNFORMATTED')). -/
def c5DirectUnformattedRegistry : Registry :=
  [{ unitNumber := 7, isUnformatted := some true, access := Access.Direct }]

/-- A direct-access formatted unit with an active child I/O context whose
parent is formatted output. -/
def c5DirectChildRegistry : Registry :=
  [{ unitNumber := 8, isUnformatted := some false, access := Access.Direct,
     child := some { parentIsUnformatted := false,
                     parentDirection := Direction.Output } }]

def c5FormattedDirectUnit : ExternalFileUnit :=
  { unitNumber := 9, isUnformatted := some false, access := Access.Direct }

def c5FormattedDirectRegistry : Registry := [c5FormattedDirectUnit]

/-- The open sub-state after its operation has been completed. -/
def completedOpen (o : OpenState) : StmtCore :=
  StmtCore.openSt { o with completed := true }

/-- The handler after an error e was signalled on it with no message. -/
def signalledHandler (h : Handler) (e : Iostat) : Handler :=
  { h with pending := e, msg := none }

def c6OpenState : OpenState := { unit := { unitNumber := 11 } }

def c6OpenCookie : Cookie :=
  { core := StmtCore.openSt c6OpenState,
    handler := { anyChannel := true, pending := Iostat.Ok, msg := none } }

def c6ErrOpenState : OpenState := { unit := { unitNumber := 12 } }

def c6ErrOpenCookie : Cookie :=
  { core := StmtCore.openSt c6ErrOpenState,
    handler := { anyChannel := true, pending := Iostat.GenericError, msg := none } }

/-- The handler state after the failed SetRecl(0) signal: the recoverable
GenericError status with the message "RECL= must be greater than zero". -/
def reclZeroHandler (h : Handler) : Handler :=
  { h with pending := Iostat.GenericError,
           msg := some "RECL= must be greater than zero" }

def c7OpenState : OpenState := { unit := { unitNumber := 13 } }

def c7OpenCookie : Cookie :=
  { core := StmtCore.openSt c7OpenState,
    handler := { anyChannel := true, pending := Iostat.Ok, msg := none } }

/-- The handler after an invalid keyword value was signalled with the given
message. -/
def badKeywordHandler (h : Handler) (m : String) : Handler :=
  { h with pending := Iostat.ErrorInKeyword, msg := some m }

def c10OpenState : OpenState := { unit := { unitNumber := 14 } }

def c10OpenCookie : Cookie :=
  { core := StmtCore.openSt c10OpenState,
    handler := { anyChannel := true, pending := Iostat.Ok, msg := none } }

/-! ## Helper lemmas about the registry -/

theorem lookUp_unitNumber {rs : Registry} {n : Int} {u : ExternalFileUnit}
    (h : LookUp rs n = some u) : u.unitNumber = n := by
  unfold LookUp at h
  simpa using List.find?_some h

theorem lookUp_updateUnit {rs : Registry} {n : Int} {u v : ExternalFileUnit}
    (h : LookUp rs n = some v) (hn : u.unitNumber = n) :
    LookUp (updateUnit rs u) n = some u := by
  induction rs with
  | nil => simp [LookUp] at h
  | cons w t ih =>
    by_cases hw : w.unitNumber = n
    · simp [LookUp, updateUnit, hw, hn]
    · have h' : LookUp t n = some v := by
        simpa [LookUp, List.find?_cons, hw] using h
      have hne : ¬ w.unitNumber = u.unitNumber := by rw [hn]; exact hw
      simpa [LookUp, updateUnit, List.find?_cons, hw, hne] using ih h'

/-! ## Helper lemmas about the codec -/

theorem hashFoldl_ge (s : List Char) (a : Nat) :
    a ≤ s.foldl (fun h c => 26 * h + (c.toNat - 65)) a := by
  induction s generalizing a with
  | nil => simp
  | cons c t ih =>
    simp only [List.foldl_cons]
    exact le_trans (by omega) (ih (26 * a + (c.toNat - 65)))

theorem hashInquiryKeyword_ge_one (s : List Char) : 1 ≤ HashInquiryKeyword s :=
  hashFoldl_ge s 1

theorem hashInquiryKeyword_append (t : List Char) (c : Char) :
    HashInquiryKeyword (t ++ [c]) = 26 * HashInquiryKeyword t + (c.toNat - 65) := by
  simp [HashInquiryKeyword, List.foldl_append]

/-- The decode loop inverts the encoder whenever the loop's guard never
trips, i.e. whenever the starting offset leaves room for all the letters of
the keyword (the terminator's slot was consumed before the loop was
entered; the guard allows one store below offset 0, hence the - 1). -/
theorem decodeLoop_encode (s : List Char) :
    ∀ (p : Int) (acc : List Char),
      (∀ c ∈ s, 65 ≤ c.toNat ∧ c.toNat ≤ 90) → (s.length : Int) - 1 ≤ p →
      InquiryKeywordHashDecodeLoop (HashInquiryKeyword s) p acc =
        some (p - s.length, s ++ acc) := by
  induction s using List.reverseRecOn with
  | nil =>
    intro p acc _ _
    unfold InquiryKeywordHashDecodeLoop
    simp [HashInquiryKeyword]
  | append_singleton t c ih =>
    intro p acc hchars hp
    have hc : 65 ≤ c.toNat ∧ c.toNat ≤ 90 := hchars c (by simp)
    have hE : 1 ≤ HashInquiryKeyword t := hashInquiryKeyword_ge_one t
    have hlen : ((t ++ [c]).length : Int) = (t.length : Int) + 1 := by
      simp
    have hhash : HashInquiryKeyword (t ++ [c]) =
        26 * HashInquiryKeyword t + (c.toNat - 65) := hashInquiryKeyword_append t c
    have hgt : HashInquiryKeyword (t ++ [c]) > 1 := by omega
    have hpnn : ¬ p < 0 := by omega
    have hdiv : HashInquiryKeyword (t ++ [c]) / 26 = HashInquiryKeyword t := by
      rw [hhash, Nat.mul_add_div (by omega)]
      omega
    have hmod : 65 + HashInquiryKeyword (t ++ [c]) % 26 = c.toNat := by
      rw [hhash, Nat.mul_add_mod]
      omega
    rw [InquiryKeywordHashDecodeLoop]
    rw [dif_pos hgt, if_neg hpnn, hdiv, hmod, Char.ofNat_toNat]
    rw [ih (p - 1) (c :: acc) (fun d hd => hchars d (by simp [hd])) (by omega)]
    congr 1
    simp only [Prod.mk.injEq]
    refine ⟨by omega, by simp⟩

/-- Full round trip: decoding the encoding of any all-uppercase keyword into
a buffer with room for the keyword and the terminator yields the keyword,
placed so that its first character sits at offset n - 1 - length (within
the buffer). -/
theorem inquiryKeywordHashDecode_roundTrip (s : List Char) (n : Nat)
    (hchars : ∀ c ∈ s, 65 ≤ c.toNat ∧ c.toNat ≤ 90)
    (hn : s.length + 1 ≤ n) :
    InquiryKeywordHashDecode n (HashInquiryKeyword s) =
      some ((n : Int) - 1 - s.length, s) := by
  unfold InquiryKeywordHashDecode
  rw [if_neg (by omega)]
  rw [decodeLoop_encode s ((n : Int) - 1) [] hchars (by omega)]
  simp

/-- The boundary case of the decoder's guard: a buffer of exactly the
keyword's length (one byte too short to hold keyword plus terminator) does
NOT make the decoder fail; the guard p < buffer is tested before the
pre-decrement store, so the final store lands at offset -1, one byte before
the buffer, and the returned pointer is buffer - 1 (non-null). -/
theorem inquiryKeywordHashDecode_exactLength (s : List Char)
    (hchars : ∀ c ∈ s, 65 ≤ c.toNat ∧ c.toNat ≤ 90) (hne : s ≠ []) :
    InquiryKeywordHashDecode s.length (HashInquiryKeyword s) = some (-1, s) := by
  have hlen : 1 ≤ s.length := by
    cases s with
    | nil => exact absurd rfl hne
    | cons a t => simp
  unfold InquiryKeywordHashDecode
  rw [if_neg (by omega)]
  rw [decodeLoop_encode s ((s.length : Int) - 1) [] hchars (by omega)]
  simp

/-! ## Helper lemma about the narrowing conversion -/

theorem toExternalUnit_eq_self_iff (n : Int) :
    (n = toExternalUnit n) ↔ fitsExternalUnit n = true := by
  unfold toExternalUnit fitsExternalUnit
  simp only [Bool.and_eq_true, decide_eq_true_eq]
  omega

/-! ## Claim theorems -/

/-- Claim C1 (code bug).  First conjunct: with a buffer large enough for the
keyword and its terminator the decoder inverts the encoder.  Second
conjunct: decoding 0, which no keyword encodes, fails by returning null.
Third conjunct, the failing input: decoding the encoding of "A" (hash 26)
into a buffer of exactly one byte, which is too short to hold the result
and its terminator, does NOT return null as the claim requires; because the
guard p < buffer is tested before the pre-decrement store, the decoder
stores the letter at offset -1, one byte before the buffer, and returns the
(non-null) pointer buffer - 1. -/
theorem c1_inquiryKeywordHashDecode_eval :
    InquiryKeywordHashDecode 2 (HashInquiryKeyword [Char.ofNat 65]) =
        some (0, [Char.ofNat 65])
    ∧ InquiryKeywordHashDecode 5 0 = none
    ∧ InquiryKeywordHashDecode 1 (HashInquiryKeyword [Char.ofNat 65]) =
        some (-1, [Char.ofNat 65]) := by
  refine ⟨?_, ?_, ?_⟩
  · have h := inquiryKeywordHashDecode_roundTrip [Char.ofNat 65] 2
      (by intro c hc; simp at hc; simp [hc]) (by simp)
    simpa using h
  · unfold InquiryKeywordHashDecode
    rw [if_neg (by omega)]
    unfold InquiryKeywordHashDecodeLoop
    simp
  · have h := inquiryKeywordHashDecode_exactLength [Char.ofNat 65]
      (by intro c hc; simp at hc; simp [hc]) (by simp)
    simpa using h

/-- Claim C2: the unit-number range validator.  A 64-bit unit number that
fits the 32-bit unit identifier type always checks out Ok; a value that
does not fit reports IostatUnitOverflow (through the enabled IOSTAT
channel), and the modelled Begin-after-validation convention yields a
handle whose status is unit overflow while leaving the registry
unmodified. -/
theorem c2_checkUnitNumberInRange_spec (unit : Int) (rs : Registry) :
    (fitsExternalUnit unit = true →
      ∀ handleError : Bool,
        CheckUnitNumberInRange64 unit handleError = IoResult.ok Iostat.Ok)
    ∧ (fitsExternalUnit unit = false →
      CheckUnitNumberInRange64 unit true = IoResult.ok Iostat.UnitOverflow
      ∧ BeginExternalListOutput64 unit true rs =
          IoResult.ok
            ({ core := StmtCore.erroneous none,
               handler := { anyChannel := true, pending := Iostat.UnitOverflow,
                            msg := none },
               modes := {} }, rs)) := by
  constructor
  · intro hfit handleError
    unfold CheckUnitNumberInRange64
    rw [if_pos ((toExternalUnit_eq_self_iff unit).mpr hfit)]
  · intro hfit
    have hne : ¬ unit = toExternalUnit unit := by
      intro h
      rw [(toExternalUnit_eq_self_iff unit).mp h] at hfit
      exact Bool.noConfusion hfit
    have hc : CheckUnitNumberInRange64 unit true = IoResult.ok Iostat.UnitOverflow := by
      unfold CheckUnitNumberInRange64
      rw [if_neg hne]
      simp [Handler.signalError]
    refine ⟨hc, ?_⟩
    unfold BeginExternalListOutput64
    rw [hc]

/-- Witness for C2: 2^31 does not fit and reports unit overflow; 42 fits
and reports Ok. -/
theorem c2_checkUnitNumberInRange_witness :
    CheckUnitNumberInRange64 2147483648 true = IoResult.ok Iostat.UnitOverflow
    ∧ CheckUnitNumberInRange64 42 true = IoResult.ok Iostat.Ok :=
  ⟨((c2_checkUnitNumberInRange_spec 2147483648 []).2 (by decide)).1,
   (c2_checkUnitNumberInRange_spec 42 []).1 (by decide) true⟩

/-- Counterexample for claim C3.  The claim says SetAccess on any statement
that is not an OPEN statement always takes the fatal misuse path; but on an
erroneous statement (which is not an OPEN statement) SetAccess returns
false without crashing and without signalling anything. -/
theorem c3_setAccess_counterexample :
    SetAccess c3ErroneousCookie "STREAM" = IoResult.ok (false, c3ErroneousCookie) := by
  decide

/-- Claim C3 as amended: SetAccess on a statement that is neither an OPEN
statement nor an erroneous statement always crashes (for every keyword and
regardless of the enabled error channels), and on an erroneous statement it
returns false with the cookie untouched. -/
theorem c3_setAccess_nonOpen_spec (c : Cookie) (keyword : String) :
    (c.core.isOpenB = false → c.core.isErroneousB = false →
      SetAccess c keyword =
        IoResult.crash "SetAccess() called when not in an OPEN statement")
    ∧ (c.core.isErroneousB = true →
      SetAccess c keyword = IoResult.ok (false, c)) := by
  constructor
  · intro hopen herr
    unfold SetAccess
    cases hcore : c.core <;>
      simp_all [StmtCore.isOpenB, StmtCore.isErroneousB]
  · intro herr
    unfold SetAccess
    cases hcore : c.core <;>
      simp_all [StmtCore.isErroneousB]

/-- Witness for C3: a no-op statement (not OPEN, not erroneous) crashes. -/
theorem c3_setAccess_nonOpen_witness :
    SetAccess c3NoopCookie "DIRECT" =
      IoResult.crash "SetAccess() called when not in an OPEN statement" :=
  (c3_setAccess_nonOpen_spec c3NoopCookie "DIRECT").1 (by decide) (by decide)

/-- Claim C4: a unit's formatting flag is never silently flipped by a later
Begin.  A list-directed or format-directed (formatted) Begin on a unit
already established unformatted begins in an erroneous statement carrying
IostatFormattedIoOnUnformattedUnit; an unformatted Begin on a unit already
established formatted begins in an erroneous statement carrying
IostatUnformattedIoOnFormattedUnit; in all cases the unit is still found in
the resulting registry with the same record, so its formatting flag is
unchanged. -/
theorem c4_formattingFlagMismatch_spec (rs : Registry) (n : Int)
    (dir : Direction) (u : ExternalFileUnit) :
    (LookUp rs (resolveListUnit dir n) = some u → u.isUnformatted = some true →
      (BeginExternalListIo dir n rs).1.core.isErroneousB = true
      ∧ (BeginExternalListIo dir n rs).1.handler.pending =
          Iostat.FormattedIoOnUnformattedUnit
      ∧ LookUp (BeginExternalListIo dir n rs).2 (resolveListUnit dir n) = some u)
    ∧ (LookUp rs (resolveListUnit dir n) = some u → u.isUnformatted = some true →
      (BeginExternalFormattedIo dir n rs).1.core.isErroneousB = true
      ∧ (BeginExternalFormattedIo dir n rs).1.handler.pending =
          Iostat.FormattedIoOnUnformattedUnit
      ∧ LookUp (BeginExternalFormattedIo dir n rs).2 (resolveListUnit dir n) = some u)
    ∧ (LookUp rs n = some u → u.isUnformatted = some false →
      (BeginUnformattedIo dir n rs).1.core.isErroneousB = true
      ∧ (BeginUnformattedIo dir n rs).1.handler.pending =
          Iostat.UnformattedIoOnFormattedUnit
      ∧ LookUp (BeginUnformattedIo dir n rs).2 n = some u) := by
  refine ⟨?_, ?_, ?_⟩
  · intro hL hU
    have hnum := lookUp_unitNumber hL
    have hupd := lookUp_updateUnit (u := u) hL hnum
    cases hcld : u.child with
    | some child =>
      have hred : BeginExternalListIo dir n rs =
          ({ core := StmtCore.erroneous none,
             handler := freshHandler Iostat.FormattedIoOnUnformattedUnit,
             modes := {} }, updateUnit rs u) := by
        simp [BeginExternalListIo, GetOrCreateUnit, LookUpOrCreateAnonymous, hL, hU, hcld]
      rw [hred]
      exact ⟨rfl, rfl, hupd⟩
    | none =>
      have hred : BeginExternalListIo dir n rs =
          ({ core := StmtCore.erroneous (some u.unitNumber),
             handler := freshHandler Iostat.FormattedIoOnUnformattedUnit,
             modes := {} }, updateUnit rs u) := by
        simp [BeginExternalListIo, GetOrCreateUnit, LookUpOrCreateAnonymous, hL, hU, hcld]
      rw [hred]
      exact ⟨rfl, rfl, hupd⟩
  · intro hL hU
    have hnum := lookUp_unitNumber hL
    have hupd := lookUp_updateUnit (u := u) hL hnum
    cases hcld : u.child with
    | some child =>
      have hred : BeginExternalFormattedIo dir n rs =
          ({ core := StmtCore.erroneous none,
             handler := freshHandler Iostat.FormattedIoOnUnformattedUnit,
             modes := {} }, updateUnit rs u) := by
        simp [BeginExternalFormattedIo, GetOrCreateUnit, LookUpOrCreateAnonymous, hL, hU, hcld]
      rw [hred]
      exact ⟨rfl, rfl, hupd⟩
    | none =>
      have hred : BeginExternalFormattedIo dir n rs =
          ({ core := StmtCore.erroneous (some u.unitNumber),
             handler := freshHandler Iostat.FormattedIoOnUnformattedUnit,
             modes := {} }, updateUnit rs u) := by
        simp [BeginExternalFormattedIo, GetOrCreateUnit, LookUpOrCreateAnonymous, hL, hU, hcld]
      rw [hred]
      exact ⟨rfl, rfl, hupd⟩
  · intro hL hU
    have hnum := lookUp_unitNumber hL
    have hupd := lookUp_updateUnit (u := u) hL hnum
    cases hcld : u.child with
    | some child =>
      have hred : BeginUnformattedIo dir n rs =
          ({ core := StmtCore.erroneous none,
             handler := freshHandler Iostat.UnformattedIoOnFormattedUnit,
             modes := {} }, updateUnit rs u) := by
        simp [BeginUnformattedIo, GetOrCreateUnit, LookUpOrCreateAnonymous, hL, hU, hcld]
      rw [hred]
      exact ⟨rfl, rfl, hupd⟩
    | none =>
      have hred : BeginUnformattedIo dir n rs =
          ({ core := StmtCore.erroneous (some u.unitNumber),
             handler := freshHandler Iostat.UnformattedIoOnFormattedUnit,
             modes := {} }, updateUnit rs u) := by
        simp [BeginUnformattedIo, GetOrCreateUnit, LookUpOrCreateAnonymous, hL, hU, hcld]
      rw [hred]
      exact ⟨rfl, rfl, hupd⟩

/-- Witness for C4: a list-directed output Begin on unit 7, established
unformatted, begins erroneously with the formatting-mismatch status and
the unit record (hence its formatting flag) is unchanged. -/
theorem c4_formattingFlagMismatch_witness :
    (BeginExternalListIo Direction.Output 7 c4Registry).1.core.isErroneousB = true
    ∧ (BeginExternalListIo Direction.Output 7 c4Registry).1.handler.pending =
        Iostat.FormattedIoOnUnformattedUnit
    ∧ LookUp (BeginExternalListIo Direction.Output 7 c4Registry).2
        (resolveListUnit Direction.Output 7) = some c4Unit :=
  (c4_formattingFlagMismatch_spec c4Registry 7 Direction.Output c4Unit).1
    (by decide) (by decide)

/-- Counterexample for claim C5.  A list-directed Begin against a connected
Direct-access unit does not always produce the dedicated
list-directed-I/O-on-direct-access status: (a) when the unit is established
unformatted, the statement carries the formatting-mismatch status instead;
(b) when the unit has an active compatible child I/O context, the statement
begins as a child list transfer with status Ok, not in an error variant at
all. -/
theorem c5_beginExternalList_direct_counterexample :
    (BeginExternalListIo Direction.Output 7 c5DirectUnformattedRegistry).1.handler.pending =
        Iostat.FormattedIoOnUnformattedUnit
    ∧ (BeginExternalListIo Direction.Output 7 c5DirectUnformattedRegistry).1.handler.pending ≠
        Iostat.ListIoOnDirectAccessUnit
    ∧ (BeginExternalListIo Direction.Output 8 c5DirectChildRegistry).1.core =
        StmtCore.childList Direction.Output
    ∧ (BeginExternalListIo Direction.Output 8 c5DirectChildRegistry).1.handler.pending =
        Iostat.Ok := by
  decide

/-- Claim C5 as amended: a list-directed Begin (either direction) against a
connected unit with no active child I/O context, whose access mode is
Direct and whose formatting is not established unformatted, always begins
in an erroneous statement carrying the dedicated
IostatListIoOnDirectAccessUnit status. -/
theorem c5_beginExternalList_direct_spec (rs : Registry) (n : Int)
    (dir : Direction) (u : ExternalFileUnit)
    (hL : LookUp rs (resolveListUnit dir n) = some u)
    (hchild : u.child = none)
    (hfmt : u.isUnformatted ≠ some true)
    (hacc : u.access = Access.Direct) :
    (BeginExternalListIo dir n rs).1.core.isErroneousB = true
    ∧ (BeginExternalListIo dir n rs).1.handler.pending =
        Iostat.ListIoOnDirectAccessUnit := by
  rcases hfu : u.isUnformatted with _ | b
  · constructor <;>
      simp [BeginExternalListIo, GetOrCreateUnit, LookUpOrCreateAnonymous, hL, hfu,
        hchild, hacc, StmtCore.isErroneousB, freshHandler]
  · cases b
    · constructor <;>
        simp [BeginExternalListIo, GetOrCreateUnit, LookUpOrCreateAnonymous, hL, hfu,
          hchild, hacc, StmtCore.isErroneousB, freshHandler]
    · exact absurd hfu hfmt

/-- Witness for the amended C5: a list-directed input Begin on a connected
formatted direct-access unit carries IostatListIoOnDirectAccessUnit. -/
theorem c5_beginExternalList_direct_witness :
    (BeginExternalListIo Direction.Input 9 c5FormattedDirectRegistry).1.core.isErroneousB = true
    ∧ (BeginExternalListIo Direction.Input 9 c5FormattedDirectRegistry).1.handler.pending =
        Iostat.ListIoOnDirectAccessUnit :=
  c5_beginExternalList_direct_spec c5FormattedDirectRegistry 9 Direction.Input
    c5FormattedDirectUnit (by decide) (by decide) (by decide) (by decide)

/-- Claim C6: GetNewUnit and the "leave alone on error" convention.  On an
erroneous cookie (a failed OPEN that could not even begin) it returns false
and the output variable is untouched (the none in the second component); on
an OPEN statement already in error it returns false and the variable is
untouched; on an OPEN whose operation fails while being completed it
returns false and the variable is untouched; and only on an OPEN that
completed without error (and whose unit number fits the requested kind) is
the unit number written and true returned. -/
theorem c6_getNewUnit_spec (c : Cookie) (o : OpenState) (kind : Nat) :
    (∀ uopt, c.core = StmtCore.erroneous uopt →
      GetNewUnit c kind = IoResult.ok (false, none, c))
    ∧ (c.core = StmtCore.openSt o → c.inError = true →
      GetNewUnit c kind = IoResult.ok (false, none, c))
    ∧ (c.core = StmtCore.openSt o → c.inError = false → o.completed = false →
        o.completeError ≠ Iostat.Ok → c.handler.anyChannel = true →
      GetNewUnit c kind = IoResult.ok (false, none,
        { c with core := completedOpen o,
                 handler := signalledHandler c.handler o.completeError }))
    ∧ (∀ v, c.core = StmtCore.openSt o → c.inError = false → o.completed = false →
        o.completeError = Iostat.Ok → SetInteger o.unit.unitNumber kind = some v →
      GetNewUnit c kind = IoResult.ok (true, some v,
        { c with core := completedOpen o })) := by
  refine ⟨?_, ?_, ?_, ?_⟩
  · intro uopt h
    simp [GetNewUnit, h]
  · intro h hin
    obtain ⟨cc, ch, cm⟩ := c
    replace h : cc = StmtCore.openSt o := h
    subst h
    have hpend : (ch.pending != Iostat.Ok) = true := hin
    simp [GetNewUnit, Cookie.inError, hpend]
  · intro h hin hcompl herr hch
    obtain ⟨cc, ch, cm⟩ := c
    replace h : cc = StmtCore.openSt o := h
    subst h
    have hpend : ch.pending = Iostat.Ok := by
      have hf : (ch.pending != Iostat.Ok) = false := hin
      simpa using hf
    have herr' : (o.completeError != Iostat.Ok) = true := by
      simpa using herr
    replace hch : ch.anyChannel = true := hch
    simp [GetNewUnit, Cookie.inError, hpend, completeOpenOperation, hcompl,
      herr, herr', Handler.signalError, hch, completedOpen, signalledHandler]
  · intro v h hin hcompl hok hset
    obtain ⟨cc, ch, cm⟩ := c
    replace h : cc = StmtCore.openSt o := h
    subst h
    have hpend : ch.pending = Iostat.Ok := by
      have hf : (ch.pending != Iostat.Ok) = false := hin
      simpa using hf
    simp [GetNewUnit, Cookie.inError, hpend, completeOpenOperation, hcompl,
      hok, hset, completedOpen]

/-- Witness for C6: an OPEN that ended in error returns false and leaves the
output variable unmodified; an OPEN that completed without error writes the
new unit number and returns true. -/
theorem c6_getNewUnit_witness :
    GetNewUnit c6ErrOpenCookie 4 = IoResult.ok (false, none, c6ErrOpenCookie)
    ∧ GetNewUnit c6OpenCookie 4 = IoResult.ok (true, some 11,
        { c6OpenCookie with core := completedOpen c6OpenState }) :=
  ⟨(c6_getNewUnit_spec c6ErrOpenCookie c6ErrOpenState 4).2.1 (by decide) (by decide),
   (c6_getNewUnit_spec c6OpenCookie c6OpenState 4).2.2.2 11 (by decide) (by decide)
     (by decide) (by decide) (by decide)⟩

/-- Claim C7: SetRecl(0) on an OPEN statement that has not completed its
operation always fails and never touches the unit's record length.  With a
reporting channel enabled (and no earlier error) it returns false and the
cookie's statement state, hence the unit's openRecl, is unchanged: only the
handler changes, now carrying the recoverable status and the message
"RECL= must be greater than zero".  With no channel enabled the signal
escalates to the fatal path carrying the same message. -/
theorem c7_setRecl_zero_spec (c : Cookie) (o : OpenState) :
    (c.core = StmtCore.openSt o → o.completed = false →
      c.handler.anyChannel = true → c.handler.pending = Iostat.Ok →
      SetRecl c 0 = IoResult.ok (false, { c with handler := reclZeroHandler c.handler }))
    ∧ (c.core = StmtCore.openSt o → o.completed = false →
      c.handler.anyChannel = false →
      SetRecl c 0 = IoResult.crash "RECL= must be greater than zero") := by
  constructor
  · intro h hcompl hch hpend
    obtain ⟨cc, ch, cm⟩ := c
    replace h : cc = StmtCore.openSt o := h
    subst h
    replace hch : ch.anyChannel = true := hch
    replace hpend : ch.pending = Iostat.Ok := hpend
    simp [SetRecl, hcompl, signalOn, Handler.signalError, hch, hpend, reclZeroHandler]
  · intro h hcompl hch
    obtain ⟨cc, ch, cm⟩ := c
    replace h : cc = StmtCore.openSt o := h
    subst h
    replace hch : ch.anyChannel = false := hch
    simp [SetRecl, hcompl, signalOn, Handler.signalError, hch]

/-- Witness for C7: SetRecl(0) on a live OPEN with IOSTAT= enabled returns
false, records the message, and leaves the open statement state (and so the
unit's openRecl, still unset) unchanged. -/
theorem c7_setRecl_zero_witness :
    SetRecl c7OpenCookie 0 = IoResult.ok (false,
      { c7OpenCookie with handler := reclZeroHandler c7OpenCookie.handler }) :=
  (c7_setRecl_zero_spec c7OpenCookie c7OpenState).1 (by decide) (by decide)
    (by decide) (by decide)

/-- Claim C8: CLOSE on a unit number that is not currently connected is a
legal no-op: BeginClose returns a no-op statement handle with no pending
error, ending that statement yields status Ok, and the unit registry is
unchanged. -/
theorem c8_beginClose_unconnected_spec (rs : Registry) (n : Int)
    (h : LookUp rs n = none) :
    (BeginClose n rs).1 = NoopUnit n Iostat.Ok
    ∧ (BeginClose n rs).1.handler.pending = Iostat.Ok
    ∧ EndIoStatement (BeginClose n rs).1 = Iostat.Ok
    ∧ (BeginClose n rs).2 = rs := by
  have h2 : LookUpForClose rs n = none := h
  refine ⟨?_, ?_, ?_, ?_⟩ <;>
    simp [BeginClose, h, h2, NoopUnit, EndIoStatement, freshHandler]

/-- Witness for C8: closing never-connected unit 7 against an empty
registry. -/
theorem c8_beginClose_unconnected_witness :
    (BeginClose 7 ([] : Registry)).1 = NoopUnit 7 Iostat.Ok
    ∧ (BeginClose 7 ([] : Registry)).1.handler.pending = Iostat.Ok
    ∧ EndIoStatement (BeginClose 7 ([] : Registry)).1 = Iostat.Ok
    ∧ (BeginClose 7 ([] : Registry)).2 = [] :=
  c8_beginClose_unconnected_spec [] 7 (by decide)

/-- Claim C9: BeginWait on an unconnected unit.  With ID=0 the handle is a
no-op with status Ok (nothing to wait for) and the registry is unchanged;
with any nonzero ID the handle carries the bad-WAIT-unit status. -/
theorem c9_beginWait_unconnected_spec (rs : Registry) (n : Int) (id : Int)
    (h : LookUp rs n = none) :
    (BeginWait n 0 rs).1 = NoopUnit n Iostat.Ok
    ∧ (BeginWait n 0 rs).1.handler.pending = Iostat.Ok
    ∧ (BeginWait n 0 rs).2 = rs
    ∧ (id ≠ 0 →
        (BeginWait n id rs).1 = NoopUnit n Iostat.BadWaitUnit
        ∧ (BeginWait n id rs).1.handler.pending = Iostat.BadWaitUnit
        ∧ (BeginWait n id rs).2 = rs) := by
  refine ⟨?_, ?_, ?_, ?_⟩
  · simp [BeginWait, h]
  · simp [BeginWait, h, NoopUnit, freshHandler]
  · simp [BeginWait, h]
  · intro hid
    refine ⟨?_, ?_, ?_⟩ <;> simp [BeginWait, h, hid, NoopUnit, freshHandler]

/-- Witness for C9: waiting on never-connected unit 7 with ID=0 is Ok;
with ID=42 it is the bad-WAIT-unit error. -/
theorem c9_beginWait_unconnected_witness :
    (BeginWait 7 0 ([] : Registry)).1.handler.pending = Iostat.Ok
    ∧ (BeginWait 7 42 ([] : Registry)).1.handler.pending = Iostat.BadWaitUnit :=
  ⟨((c9_beginWait_unconnected_spec [] 7 42 (by decide)).2.1),
   ((c9_beginWait_unconnected_spec [] 7 42 (by decide)).2.2.2 (by decide)).2.1⟩

/-- Claim C10: on an OPEN statement that has not completed its operation,
SetAccess with a keyword value matching none of SEQUENTIAL, DIRECT, STREAM,
APPEND signals the recoverable IostatErrorInKeyword status yet still
returns true, whereas the keyword setter SetBlank, on an unrecognized
keyword, signals the same status but returns false. -/
theorem c10_setAccess_badKeyword_spec (c : Cookie) (o : OpenState)
    (kw kw2 : String) :
    (c.core = StmtCore.openSt o → o.completed = false →
      c.handler.anyChannel = true → c.handler.pending = Iostat.Ok →
      IdentifyValue kw accessKeywords = none →
      SetAccess c kw = IoResult.ok (true,
        { c with handler := badKeywordHandler c.handler ("Invalid ACCESS=" ++ kw) }))
    ∧ (c.handler.anyChannel = true → c.handler.pending = Iostat.Ok →
      IdentifyValue kw2 blankKeywords = none →
      SetBlank c kw2 = IoResult.ok (false,
        { c with handler := badKeywordHandler c.handler ("Invalid BLANK=" ++ kw2) })) := by
  constructor
  · intro h hcompl hch hpend hid
    obtain ⟨cc, ch, cm⟩ := c
    replace h : cc = StmtCore.openSt o := h
    subst h
    replace hch : ch.anyChannel = true := hch
    replace hpend : ch.pending = Iostat.Ok := hpend
    simp [SetAccess, hcompl, hid, signalOn, Handler.signalError, hch, hpend,
      badKeywordHandler]
  · intro hch hpend hid
    obtain ⟨cc, ch, cm⟩ := c
    replace hch : ch.anyChannel = true := hch
    replace hpend : ch.pending = Iostat.Ok := hpend
    simp [SetBlank, hid, signalOn, Handler.signalError, hch, hpend,
      badKeywordHandler]

/-- Witness for C10: ACCESS='FOO' signals the bad-keyword status but returns
true; BLANK='FOO' signals the bad-keyword status and returns false. -/
theorem c10_setAccess_badKeyword_witness :
    SetAccess c10OpenCookie "FOO" = IoResult.ok (true,
      { c10OpenCookie with
        handler := badKeywordHandler c10OpenCookie.handler "Invalid ACCESS=FOO" })
    ∧ SetBlank c10OpenCookie "FOO" = IoResult.ok (false,
      { c10OpenCookie with
        handler := badKeywordHandler c10OpenCookie.handler "Invalid BLANK=FOO" }) :=
  ⟨(c10_setAccess_badKeyword_spec c10OpenCookie c10OpenState "FOO" "FOO").1
      (by decide) (by decide) (by decide) (by decide) (by decide),
   (c10_setAccess_badKeyword_spec c10OpenCookie c10OpenState "FOO" "FOO").2
      (by decide) (by decide) (by decide)⟩
